import Mathlib

/-!
Shallow embedding of `certbot_dns_dreamhost/dns_dreamhost.py` (the
`_DreamHostClient` class and the two `Authenticator` hooks that delegate to
it), together with theorems checking the specification's claims about it.

The embedding has two layers.

Layer 1 (wire layer) models the response-classification logic of
`_test_key` and `_api_request` over a single HTTP response, with a small
JSON value type rich enough to distinguish a body that is not JSON at all
(Python `resp.json()` raises `ValueError`, which `_test_key` catches),
a body that is JSON but not a JSON object with the expected fields
(Python `result["result"]` raises `TypeError`/`KeyError`, which nothing
catches), and a well-formed `{result, data}` object.

Layer 2 (record layer) models `get_existing_txt`, `add_txt_record`,
`delete_txt_record`, `_perform` and `_cleanup` against a provider that
answers every request successfully, so that claims about which requests the
client issues (lookups, creates, removes) can be stated.  A `ClientState`
carries the client's cached `valid_key` flag, the provider's current record
list, and the ordered log of API requests issued so far after construction.
-/

namespace DreamHost

/-! ### Layer 1: JSON values and response classification -/

/-- A minimal JSON value, rich enough for the responses the client
inspects: strings, arrays and objects (field lists). -/
inductive Json where
  | str : String → Json
  | arr : List Json → Json
  | obj : List (String × Json) → Json

/-- Python `j[k]` on a parsed JSON value: succeeds only on an object that
has the key; on an array or string it raises `TypeError`, on an object
without the key it raises `KeyError`.  The `Except` error is the Python
exception rendered as text. -/
def getItem (j : Json) (k : String) : Except String Json :=
  match j with
  | .obj fields =>
    match fields.lookup k with
    | some v => .ok v
    | none => .error ("KeyError: " ++ k)
  | _ => .error "TypeError: value is not subscriptable by a string key"

/-- Python `j == s` for a parsed JSON value `j` and a string literal `s`:
true exactly when `j` is the string `s` (comparing any other JSON value
with a string is `False`, it does not raise). -/
def Json.eqString (j : Json) (s : String) : Bool :=
  match j with
  | .str t => t == s
  | _ => false

/-- Embeds `_DreamHostClient._test_key`.  The argument is the parsed probe
response body: `none` models a body `resp.json()` rejects with
`ValueError` (caught, yielding `False`); `some j` is the parsed JSON.
Mirrors `result["result"] == "error" and result["data"] == "invalid_api_key"`
including Python's `and` short-circuit: `result["data"]` is only evaluated
when `result["result"]` equals `"error"`.  An uncaught Python exception is
modelled as `.error`. -/
def _test_key (body : Option Json) : Except String Bool :=
  match body with
  | none => .ok false
  | some result =>
    match getItem result "result" with
    | .error e => .error e
    | .ok r =>
      if r.eqString "error" then
        match getItem result "data" with
        | .error e => .error e
        | .ok d => .ok (if d.eqString "invalid_api_key" then false else true)
      else .ok true

/-- The outcome of `_DreamHostClient._api_request` on one response. -/
inductive ApiOutcome where
  | noKey
  | httpError (status : Nat)
  | nonJsonError (text : String)
  | pyError (msg : String)
  | pluginError (data : Json)
  | success (data : Json)

/-- Embeds `_DreamHostClient._api_request` over a single HTTP response,
given the cached `valid_key` flag, the response status code, the raw body
text and the parsed body (`none` when the body is not JSON).
`noKey` is the early `return None` on an invalid key; `httpError` is the
`raise Exception(f"HTTP Error during login ...")` on a non-200 status;
`nonJsonError` is the `raise Exception(f"API response with non JSON: ...")`;
`pluginError` is `raise errors.PluginError(...)` carrying `result["data"]`;
`pyError` is an uncaught `KeyError`/`TypeError` from subscripting a JSON
body that lacks the expected object structure. -/
def _api_request (valid_key : Bool) (status : Nat) (text : String)
    (body : Option Json) : ApiOutcome :=
  if !valid_key then .noKey
  else if status != 200 then .httpError status
  else
    match body with
    | none => .nonJsonError text
    | some result =>
      match getItem result "result" with
      | .error e => .pyError e
      | .ok r =>
        if r.eqString "success" then
          match getItem result "data" with
          | .error e => .pyError e
          | .ok d => .success d
        else
          match getItem result "data" with
          | .error e => .pyError e
          | .ok d => .pluginError d

/-! ### Layer 2: records, requests, and the client's operations -/

/-- One DNS record as returned by `dns-list_records`: the fields the
client reads (`record["record"]`, `record["type"]`, `record["value"]`). -/
structure DNSRecord where
  record : String
  type : String
  value : String
deriving DecidableEq

/-- An API request the client can issue after construction.  These stand
for the command strings the Python code interpolates:
`"dns-list_records"`, `"dns-add_record&record={n}&type=TXT&value={c}"`,
`"dns-remove_record&record={n}&type=TXT&value={c}"`. -/
inductive ApiReq where
  | listRecords
  | addRecord (name content : String)
  | removeRecord (name content : String)
deriving DecidableEq

/-- A request is a mutation when it is a create or a remove. -/
def ApiReq.isMutation : ApiReq → Bool
  | .listRecords => false
  | .addRecord _ _ => true
  | .removeRecord _ _ => true

/-- A request is a create when it is `dns-add_record`. -/
def ApiReq.isCreate : ApiReq → Bool
  | .addRecord _ _ => true
  | _ => false

/-- A request is a remove when it is `dns-remove_record`. -/
def ApiReq.isRemove : ApiReq → Bool
  | .removeRecord _ _ => true
  | _ => false

/-- Number of create (`dns-add_record`) requests in a request log. -/
def countCreates (t : List ApiReq) : Nat :=
  (t.filter ApiReq.isCreate).length

/-- Number of remove (`dns-remove_record`) requests in a request log. -/
def countRemoves (t : List ApiReq) : Nat :=
  (t.filter ApiReq.isRemove).length

/-- Number of mutation requests in a request log. -/
def countMutations (t : List ApiReq) : Nat :=
  (t.filter ApiReq.isMutation).length

/-- The provider's reaction to a request in the happy-path provider model:
listing leaves the records unchanged, `dns-add_record` appends a TXT
record, `dns-remove_record` deletes the records matching all three of
name, type `TXT` and value. -/
def runReq (recs : List DNSRecord) : ApiReq → List DNSRecord
  | .listRecords => recs
  | .addRecord n c => recs ++ [⟨n, "TXT", c⟩]
  | .removeRecord n c =>
    recs.filter (fun r => !(r.record == n && r.type == "TXT" && r.value == c))

/-- The `data` payload of a successful provider response: a record list
for `dns-list_records`, an uninspected acknowledgement for mutations. -/
inductive ApiData where
  | records (rs : List DNSRecord)
  | acknowledged
deriving DecidableEq

/-- Client-plus-environment state threaded through the record-layer
operations: the client's cached `valid_key` flag (set once by `__init__`),
the provider's current record list, and the ordered log of the API
requests issued since construction. -/
structure ClientState where
  valid_key : Bool
  provider : List DNSRecord
  trace : List ApiReq
deriving DecidableEq

/-- Embeds `_api_request` in the record layer, against the happy-path
provider (every issued request gets a status-200 `result: "success"`
response).  Returns `none` without issuing any request when the cached
key flag is false (`if not self.valid_key: return None`); otherwise issues
the request, records it in the log, applies it to the provider and returns
the `data` payload. -/
def client_api_request (st : ClientState) (req : ApiReq) :
    Option ApiData × ClientState :=
  if st.valid_key then
    (some (match req with
           | .listRecords => ApiData.records st.provider
           | _ => ApiData.acknowledged),
     { st with provider := runReq st.provider req, trace := st.trace ++ [req] })
  else (none, st)

/-- The loop condition of `get_existing_txt`:
`record["record"] == record_name and record["type"] == "TXT"`. -/
def txtMatch (record_name : String) (r : DNSRecord) : Bool :=
  r.record == record_name && r.type == "TXT"

/-- Embeds `_DreamHostClient.get_existing_txt`: on an invalid key, return
`None` with no network call; otherwise list the records and linearly scan
for the first entry matching `txtMatch` (the `for` loop with an early
`return record`), returning `None` when nothing matches.  Iterating a
non-list payload would be an uncaught Python `TypeError`, modelled as
`.error`. -/
def get_existing_txt (st : ClientState) (record_name : String) :
    Except String (Option DNSRecord) × ClientState :=
  if st.valid_key then
    match client_api_request st .listRecords with
    | (some (.records records), st₁) =>
      (.ok (records.find? (txtMatch record_name)), st₁)
    | (some .acknowledged, st₁) =>
      (.error "TypeError: payload is not iterable as records", st₁)
    | (none, st₁) => (.error "TypeError: NoneType object is not iterable", st₁)
  else (.ok none, st)

/-- Embeds `_DreamHostClient.delete_txt_record`: raise on an invalid key;
look the record up; only when a record was found and its stored value
equals `record_content` issue the `dns-remove_record` request; otherwise
return silently. -/
def delete_txt_record (st : ClientState) (record_name record_content : String) :
    Except String Unit × ClientState :=
  if !st.valid_key then (.error "The provided key is invalid", st)
  else
    match get_existing_txt st record_name with
    | (.error e, st₁) => (.error e, st₁)
    | (.ok none, st₁) => (.ok (), st₁)
    | (.ok (some record), st₁) =>
      if record.value == record_content then
        (.ok (), (client_api_request st₁ (.removeRecord record_name record_content)).2)
      else (.ok (), st₁)

/-- Embeds `_DreamHostClient.add_txt_record`: raise on an invalid key;
look the record up; if found with the requested content already, log and
return; if found with a different content, call `delete_txt_record` with
the NEW content (source line 152) and fall through; finally issue the
`dns-add_record` request. -/
def add_txt_record (st : ClientState) (record_name record_content : String) :
    Except String Unit × ClientState :=
  if !st.valid_key then (.error "The provided key is invalid", st)
  else
    match get_existing_txt st record_name with
    | (.error e, st₁) => (.error e, st₁)
    | (.ok (some record), st₁) =>
      if record.value == record_content then (.ok (), st₁)
      else
        match delete_txt_record st₁ record_name record_content with
        | (.error e, st₂) => (.error e, st₂)
        | (.ok _, st₂) =>
          (.ok (), (client_api_request st₂ (.addRecord record_name record_content)).2)
    | (.ok none, st₁) =>
      (.ok (), (client_api_request st₁ (.addRecord record_name record_content)).2)

/-- Embeds `Authenticator._perform`: delegates to
`add_txt_record(validation_name, validation)`, ignoring `domain`. -/
def _perform (st : ClientState) (domain validation_name validation : String) :
    Except String Unit × ClientState :=
  let _ := domain
  add_txt_record st validation_name validation

/-- Embeds `Authenticator._cleanup`: delegates to
`delete_txt_record(validation_name, validation)`, ignoring `domain`. -/
def _cleanup (st : ClientState) (domain validation_name validation : String) :
    Except String Unit × ClientState :=
  let _ := domain
  delete_txt_record st validation_name validation

/-- Embeds `_DreamHostClient.__init__`: stores the credentials, runs the
`_test_key` probe (whose parsed response body is `probe`; `recs` is the
provider's record list at that moment) and caches the result in
`valid_key`; the request log of post-construction requests starts empty.
If the probe raises, construction fails with that exception. -/
def client_init (probe : Option Json) (recs : List DNSRecord) :
    Except String ClientState :=
  ( _test_key probe).map (fun b => { valid_key := b, provider := recs, trace := [] })

/-! ### Characterizations of the record-layer operations under a valid key -/

/-- Under a valid key, `get_existing_txt` issues exactly the list request
and returns the first record matching name and type `TXT`. -/
theorem get_existing_txt_valid (recs : List DNSRecord) (tr : List ApiReq) (n : String) :
    get_existing_txt ⟨true, recs, tr⟩ n =
      (.ok (recs.find? (txtMatch n)), ⟨true, recs, tr ++ [.listRecords]⟩) := rfl

/-- Full behaviour of `delete_txt_record` under a valid key, by cases on
the lookup result. -/
theorem delete_txt_record_valid (recs : List DNSRecord) (tr : List ApiReq) (n c : String) :
    delete_txt_record ⟨true, recs, tr⟩ n c =
      match recs.find? (txtMatch n) with
      | none => (.ok (), ⟨true, recs, tr ++ [.listRecords]⟩)
      | some r =>
        if r.value == c then
          (.ok (), ⟨true, runReq recs (.removeRecord n c),
            tr ++ [.listRecords, .removeRecord n c]⟩)
        else (.ok (), ⟨true, recs, tr ++ [.listRecords]⟩) := by
  cases h : recs.find? (txtMatch n) with
  | none => simp [delete_txt_record, get_existing_txt, client_api_request, runReq, h]
  | some r =>
    cases hv : (r.value == c) with
    | true => simp [delete_txt_record, get_existing_txt, client_api_request, runReq, h, hv]
    | false => simp [delete_txt_record, get_existing_txt, client_api_request, runReq, h, hv]

/-- Full behaviour of `add_txt_record` under a valid key, by cases on the
lookup result.  In the found-with-different-value branch the inner
`delete_txt_record` call receives the NEW content, its own lookup finds
the same first record, whose stored value differs from that content, so
no remove request is issued before the create. -/
theorem add_txt_record_valid (recs : List DNSRecord) (tr : List ApiReq) (n c : String) :
    add_txt_record ⟨true, recs, tr⟩ n c =
      match recs.find? (txtMatch n) with
      | none =>
        (.ok (), ⟨true, recs ++ [⟨n, "TXT", c⟩], tr ++ [.listRecords, .addRecord n c]⟩)
      | some r =>
        if r.value == c then (.ok (), ⟨true, recs, tr ++ [.listRecords]⟩)
        else
          (.ok (), ⟨true, recs ++ [⟨n, "TXT", c⟩],
            tr ++ [.listRecords, .listRecords, .addRecord n c]⟩) := by
  cases h : recs.find? (txtMatch n) with
  | none => simp [add_txt_record, get_existing_txt, client_api_request, runReq, h]
  | some r =>
    cases hv : (r.value == c) with
    | true => simp [add_txt_record, get_existing_txt, client_api_request, runReq, h, hv]
    | false =>
      simp [add_txt_record, delete_txt_record, get_existing_txt, client_api_request,
        runReq, h, hv]


/-! ### Claim theorems -/

/-- Claim C1 (code bug): with a valid key and an existing TXT record at
`"name"` holding `"old"`, `add_txt_record "name" "new"` is intended (by
the spec and by the source's own comment at the delete call) to issue one
remove and then one create; instead it issues the lookup twice, zero
remove requests and one create, leaving the old record in place next to
the new one. -/
theorem add_changed_value_issues_no_remove :
    add_txt_record ⟨true, [⟨"name", "TXT", "old"⟩], []⟩ "name" "new" =
      (.ok (), ⟨true, [⟨"name", "TXT", "old"⟩, ⟨"name", "TXT", "new"⟩],
        [.listRecords, .listRecords, .addRecord "name" "new"]⟩)
    ∧ countRemoves [ApiReq.listRecords, ApiReq.listRecords, ApiReq.addRecord "name" "new"] = 0
    ∧ countCreates [ApiReq.listRecords, ApiReq.listRecords, ApiReq.addRecord "name" "new"] = 1 :=
  ⟨rfl, rfl, rfl⟩

/-- Claim C5: whenever the cached key flag is false, `add_txt_record` and
`delete_txt_record` fail with the invalid-key error leaving the state
(and so the request log) untouched, `get_existing_txt` returns not-found
without any call, and `_api_request` short-circuits to `noKey`. -/
theorem invalid_key_short_circuit :
    ∀ (st : ClientState) (n c : String), st.valid_key = false →
      add_txt_record st n c = (.error "The provided key is invalid", st)
    ∧ delete_txt_record st n c = (.error "The provided key is invalid", st)
    ∧ get_existing_txt st n = (.ok none, st)
    ∧ ∀ (status : Nat) (text : String) (body : Option Json),
        _api_request false status text body = .noKey := by
  intro st n c h
  obtain ⟨vk, recs, tr⟩ := st
  cases vk with
  | false => exact ⟨rfl, rfl, rfl, fun _ _ _ => rfl⟩
  | true => cases h

/-- Witness for C5 at a concrete state. -/
theorem invalid_key_short_circuit_witness :
    (ClientState.mk false [] []).valid_key = false
    ∧ add_txt_record ⟨false, [], []⟩ "name" "value" =
        (.error "The provided key is invalid", ⟨false, [], []⟩) :=
  ⟨rfl, (invalid_key_short_circuit ⟨false, [], []⟩ "name" "value" rfl).1⟩


/-- Claim C6: with a valid key, `_api_request` classifies a response as
follows: a non-200 status fails with the HTTP error carrying the status
code; a non-JSON body fails with the non-JSON error carrying the raw body
text; a well-formed JSON body (an object exposing `result` and `data`)
with `result == "success"` returns the `data` payload, and with any other
`result` fails with the plugin error carrying `data` as the message. -/
theorem api_request_classification :
    ∀ (status : Nat) (text : String) (body : Option Json),
      (status ≠ 200 → _api_request true status text body = .httpError status)
    ∧ (_api_request true 200 text none = .nonJsonError text)
    ∧ (∀ (j r d : Json), body = some j →
        getItem j "result" = .ok r → getItem j "data" = .ok d →
        (r.eqString "success" = true → _api_request true 200 text body = .success d)
      ∧ (r.eqString "success" = false → _api_request true 200 text body = .pluginError d)) := by
  intro status text body
  refine ⟨fun hs => ?_, rfl, fun j r d hb hr hd => ⟨fun hsucc => ?_, fun hfail => ?_⟩⟩
  · simp [_api_request, hs]
  · subst hb
    simp [_api_request, hr, hd, hsucc]
  · subst hb
    simp [_api_request, hr, hd, hfail]

/-- Witness for C6 on a concrete success response. -/
theorem api_request_classification_witness :
    getItem (Json.obj [("result", Json.str "success"), ("data", Json.str "payload")])
        "result" = .ok (Json.str "success")
    ∧ _api_request true 200 "raw"
        (some (Json.obj [("result", Json.str "success"), ("data", Json.str "payload")])) =
        .success (Json.str "payload") :=
  ⟨rfl,
    ((api_request_classification 200 "raw"
        (some (Json.obj [("result", Json.str "success"), ("data", Json.str "payload")]))).2.2
      (Json.obj [("result", Json.str "success"), ("data", Json.str "payload")])
      (Json.str "success") (Json.str "payload") rfl rfl rfl).1 rfl⟩

/-- Claim C7, counterexample: the probe response body `[]` parses as JSON
but is not an object, so `result["result"]` raises inside `_test_key` and
the exception escapes the constructor — contradicting the claim that the
probe never raises for every probe response. -/
theorem test_key_raises_on_json_array :
    _test_key (some (Json.arr [])) =
      .error "TypeError: value is not subscriptable by a string key" := rfl

/-- Claim C7, amended: the probe never raises when the body is not JSON
at all (yields false) or is a JSON object exposing the fields the code
reads: `result == "error"` with `data == "invalid_api_key"` yields false,
`result == "error"` with any other `data` yields true, and any other
`result` yields true (without reading `data`); a body that parses as JSON
but lacks that structure makes the probe raise, so construction can fail
on such a response. -/
theorem test_key_amended :
    ( _test_key none = .ok false)
    ∧ (∀ (j r : Json), getItem j "result" = .ok r → r.eqString "error" = false →
        _test_key (some j) = .ok true)
    ∧ (∀ (j r d : Json), getItem j "result" = .ok r → r.eqString "error" = true →
        getItem j "data" = .ok d → d.eqString "invalid_api_key" = true →
        _test_key (some j) = .ok false)
    ∧ (∀ (j r d : Json), getItem j "result" = .ok r → r.eqString "error" = true →
        getItem j "data" = .ok d → d.eqString "invalid_api_key" = false →
        _test_key (some j) = .ok true) := by
  refine ⟨rfl, fun j r hr hne => ?_, fun j r d hr he hd hk => ?_, fun j r d hr he hd hk => ?_⟩
  · simp [_test_key, hr, hne]
  · simp [_test_key, hr, he, hd, hk]
  · simp [_test_key, hr, he, hd, hk]

/-- Witness for the amended C7 on a concrete invalid-key probe response. -/
theorem test_key_amended_witness :
    getItem (Json.obj [("result", Json.str "error"), ("data", Json.str "invalid_api_key")])
        "result" = .ok (Json.str "error")
    ∧ _test_key (some (Json.obj
          [("result", Json.str "error"), ("data", Json.str "invalid_api_key")])) = .ok false :=
  ⟨rfl,
    test_key_amended.2.2.1
      (Json.obj [("result", Json.str "error"), ("data", Json.str "invalid_api_key")])
      (Json.str "error") (Json.str "invalid_api_key") rfl rfl rfl rfl⟩

/-- Claim C10: `client_api_request` answers `none` only when the cached
key flag is false, and `_api_request` yields `noKey` only when its flag
argument is false; consequently, under a valid key, `get_existing_txt`
always scans an actual record list (its non-list branches are
unreachable) and returns through the `ok` branch. -/
theorem api_request_none_only_when_invalid :
    (∀ (st : ClientState) (req : ApiReq),
        (client_api_request st req).1 = none → st.valid_key = false)
    ∧ (∀ (v : Bool) (status : Nat) (text : String) (body : Option Json),
        _api_request v status text body = .noKey → v = false)
    ∧ (∀ (st : ClientState) (n : String), st.valid_key = true →
        get_existing_txt st n =
          (.ok (st.provider.find? (txtMatch n)),
           { st with trace := st.trace ++ [.listRecords] })) := by
  refine ⟨fun st req h => ?_, fun v status text body h => ?_, fun st n h => ?_⟩
  · cases hv : st.valid_key with
    | false => rfl
    | true => simp [client_api_request, hv] at h
  · cases v with
    | false => rfl
    | true =>
      simp only [_api_request, Bool.not_true, Bool.false_eq_true, if_false] at h
      split at h
      · cases h
      · split at h
        · cases h
        · split at h
          · cases h
          · split at h
            · split at h
              · cases h
              · cases h
            · split at h
              · cases h
              · cases h
  · obtain ⟨vk, recs, tr⟩ := st
    cases vk with
    | true => exact get_existing_txt_valid recs tr n
    | false => cases h

/-- Witness for C10 at a concrete invalid-key state. -/
theorem api_request_none_only_when_invalid_witness :
    (client_api_request ⟨false, [], []⟩ ApiReq.listRecords).1 = none
    ∧ (ClientState.mk false [] []).valid_key = false :=
  ⟨rfl, api_request_none_only_when_invalid.1 ⟨false, [], []⟩ ApiReq.listRecords rfl⟩


/-- Requests appended by a pure lookup do not change the remove count. -/
theorem countRemoves_append_listRecords (tr : List ApiReq) :
    countRemoves (tr ++ [.listRecords]) = countRemoves tr := by
  simp [countRemoves, List.filter_append, ApiReq.isRemove]

/-- Claim C4: with a valid key, when the lookup finds nothing, or finds a
record whose stored value differs from the requested content,
`delete_txt_record` issues zero mutation requests (only the lookup is
logged), leaves the provider untouched and returns silently; and a remove
request is issued only when a record was found whose value equals the
requested content. -/
theorem delete_txt_record_safe :
    ∀ (recs : List DNSRecord) (tr : List ApiReq) (n c : String),
      ((∀ r, recs.find? (txtMatch n) = some r → r.value ≠ c) →
        delete_txt_record ⟨true, recs, tr⟩ n c =
          (.ok (), ⟨true, recs, tr ++ [.listRecords]⟩))
    ∧ (∀ (st₁ : ClientState), delete_txt_record ⟨true, recs, tr⟩ n c = (.ok (), st₁) →
        countRemoves tr < countRemoves st₁.trace →
        ∃ r, recs.find? (txtMatch n) = some r ∧ r.value = c) := by
  intro recs tr n c
  constructor
  · intro hne
    rw [delete_txt_record_valid]
    cases h : recs.find? (txtMatch n) with
    | none => rfl
    | some r =>
      have hv : (r.value == c) = false := by
        simp only [beq_eq_false_iff_ne]
        exact hne r h
      simp [hv]
  · intro st₁ hdel hcount
    rw [delete_txt_record_valid] at hdel
    split at hdel
    next hfind =>
      injection hdel with h₁ h₂
      rw [← h₂, countRemoves_append_listRecords] at hcount
      exact absurd hcount (lt_irrefl _)
    next r hfind =>
      split at hdel
      next hv => exact ⟨r, hfind, by simpa using hv⟩
      next hv =>
        injection hdel with h₁ h₂
        rw [← h₂, countRemoves_append_listRecords] at hcount
        exact absurd hcount (lt_irrefl _)

/-- Witness for C4: deleting with a content that differs from the stored
value is a silent no-op that issues only the lookup. -/
theorem delete_txt_record_safe_witness :
    delete_txt_record ⟨true, [⟨"name", "TXT", "stored"⟩], []⟩ "name" "other" =
      (.ok (), ⟨true, [⟨"name", "TXT", "stored"⟩], [.listRecords]⟩) :=
  (delete_txt_record_safe [⟨"name", "TXT", "stored"⟩] [] "name" "other").1
    (by
      intro r h
      rw [show ([⟨"name", "TXT", "stored"⟩] : List DNSRecord).find? (txtMatch "name") =
            some ⟨"name", "TXT", "stored"⟩ from rfl] at h
      injection h with h
      rw [← h]
      decide)

/-- Claim C8: `txtMatch` is the exact, case-sensitive conjunction of the
name and type tests, and under a valid key `get_existing_txt` returns
not-found when no record matches, and otherwise the first matching record
of the listed sequence. -/
theorem get_existing_txt_first_match :
    ∀ (recs : List DNSRecord) (tr : List ApiReq) (name : String),
      (∀ (r : DNSRecord), txtMatch name r = true ↔ (r.record = name ∧ r.type = "TXT"))
    ∧ ((∀ r ∈ recs, ¬(r.record = name ∧ r.type = "TXT")) →
        get_existing_txt ⟨true, recs, tr⟩ name =
          (.ok none, ⟨true, recs, tr ++ [.listRecords]⟩))
    ∧ (∀ (l₁ l₂ : List DNSRecord) (r : DNSRecord), recs = l₁ ++ r :: l₂ →
        r.record = name → r.type = "TXT" →
        (∀ s ∈ l₁, ¬(s.record = name ∧ s.type = "TXT")) →
        get_existing_txt ⟨true, recs, tr⟩ name =
          (.ok (some r), ⟨true, recs, tr ++ [.listRecords]⟩)) := by
  intro recs tr name
  refine ⟨fun r => by simp [txtMatch], fun hnone => ?_, fun l₁ l₂ r hrecs hrn hrt hl₁ => ?_⟩
  · rw [get_existing_txt_valid]
    have h : recs.find? (txtMatch name) = none := by
      rw [List.find?_eq_none]
      intro x hx
      simp only [txtMatch, Bool.and_eq_true, beq_iff_eq]
      intro hcontra
      exact hnone x hx hcontra
    rw [h]
  · subst hrecs
    rw [get_existing_txt_valid]
    have h₁ : l₁.find? (txtMatch name) = none := by
      rw [List.find?_eq_none]
      intro x hx
      simp only [txtMatch, Bool.and_eq_true, beq_iff_eq]
      intro hcontra
      exact hl₁ x hx hcontra
    have h₂ : List.find? (txtMatch name) (r :: l₂) = some r :=
      List.find?_cons_of_pos _ (by simp [txtMatch, hrn, hrt])
    rw [List.find?_append, h₁, h₂]
    rfl

/-- Witness for C8: the first of two matching TXT records wins, and a
non-matching record ahead of them is skipped. -/
theorem get_existing_txt_first_match_witness :
    get_existing_txt
        ⟨true, [⟨"other", "A", "1"⟩, ⟨"name", "TXT", "v1"⟩, ⟨"name", "TXT", "v2"⟩], []⟩
        "name" =
      (.ok (some ⟨"name", "TXT", "v1"⟩),
       ⟨true, [⟨"other", "A", "1"⟩, ⟨"name", "TXT", "v1"⟩, ⟨"name", "TXT", "v2"⟩],
        [.listRecords]⟩) :=
  (get_existing_txt_first_match
      [⟨"other", "A", "1"⟩, ⟨"name", "TXT", "v1"⟩, ⟨"name", "TXT", "v2"⟩] [] "name").2.2
    [⟨"other", "A", "1"⟩] [⟨"name", "TXT", "v2"⟩] ⟨"name", "TXT", "v1"⟩ rfl rfl rfl
    (by decide)

/-- Claim C9: the `valid_key` flag is exactly the `_test_key` result
cached at construction (with an empty post-construction request log), no
operation ever modifies it, and when it is false neither the generic
request helper nor any record operation issues a request (the log is
unchanged). -/
theorem valid_key_invariant :
    (∀ (probe : Option Json) (recs : List DNSRecord) (st : ClientState),
        client_init probe recs = .ok st →
        _test_key probe = .ok st.valid_key ∧ st.trace = [] ∧ st.provider = recs)
    ∧ (∀ (st : ClientState) (req : ApiReq),
        ((client_api_request st req).2).valid_key = st.valid_key)
    ∧ (∀ (st : ClientState) (n : String),
        ((get_existing_txt st n).2).valid_key = st.valid_key)
    ∧ (∀ (st : ClientState) (n c : String),
        ((add_txt_record st n c).2).valid_key = st.valid_key)
    ∧ (∀ (st : ClientState) (n c : String),
        ((delete_txt_record st n c).2).valid_key = st.valid_key)
    ∧ (∀ (st : ClientState) (req : ApiReq), st.valid_key = false →
        client_api_request st req = (none, st))
    ∧ (∀ (st : ClientState) (n c : String), st.valid_key = false →
        (add_txt_record st n c).2.trace = st.trace
      ∧ (delete_txt_record st n c).2.trace = st.trace
      ∧ (get_existing_txt st n).2.trace = st.trace) := by
  refine ⟨fun probe recs st h => ?_, fun st req => ?_, fun st n => ?_, fun st n c => ?_,
    fun st n c => ?_, fun st req h => ?_, fun st n c h => ?_⟩
  · cases ht : _test_key probe with
    | error e => rw [client_init, ht] at h; cases h
    | ok b =>
      rw [client_init, ht] at h
      injection h with h
      rw [← h]
      exact ⟨rfl, rfl, rfl⟩
  · obtain ⟨vk, recs, tr⟩ := st
    cases vk <;> rfl
  · obtain ⟨vk, recs, tr⟩ := st
    cases vk <;> rfl
  · obtain ⟨vk, recs, tr⟩ := st
    cases vk with
    | false => rfl
    | true =>
      rw [add_txt_record_valid]
      cases recs.find? (txtMatch n) with
      | none => rfl
      | some r =>
        cases hv : (r.value == c) with
        | true => simp [hv]
        | false => simp [hv]
  · obtain ⟨vk, recs, tr⟩ := st
    cases vk with
    | false => rfl
    | true =>
      rw [delete_txt_record_valid]
      cases recs.find? (txtMatch n) with
      | none => rfl
      | some r =>
        cases hv : (r.value == c) with
        | true => simp [hv]
        | false => simp [hv]
  · obtain ⟨vk, recs, tr⟩ := st
    cases vk with
    | false => rfl
    | true => cases h
  · obtain ⟨vk, recs, tr⟩ := st
    cases vk with
    | false => exact ⟨rfl, rfl, rfl⟩
    | true => cases h

/-- Witness for C9 at a concrete successful probe. -/
theorem valid_key_invariant_witness :
    client_init (some (Json.obj [("result", Json.str "success"), ("data", Json.arr [])])) [] =
      .ok ⟨true, [], []⟩
    ∧ _test_key (some (Json.obj [("result", Json.str "success"), ("data", Json.arr [])])) =
        .ok (ClientState.mk true [] []).valid_key :=
  ⟨rfl,
    (valid_key_invariant.1
      (some (Json.obj [("result", Json.str "success"), ("data", Json.arr [])]))
      [] ⟨true, [], []⟩ rfl).1⟩


/-- Claim C2: `_perform` is exactly `add_txt_record` at the validation
name and token and `_cleanup` is exactly `delete_txt_record` at the same
pair (the `domain` argument is ignored); under a valid key, after
`_perform` the provider holds a TXT record at the validation name whose
value is the token, and — when the provider holds at most one distinct
record per name and type, as the spec assumes for this path — after
`_cleanup` no TXT record at the validation name holds the token. -/
theorem perform_cleanup_contract :
    ∀ (st : ClientState) (d name tok : String),
      _perform st d name tok = add_txt_record st name tok
    ∧ _cleanup st d name tok = delete_txt_record st name tok
    ∧ (st.valid_key = true →
        ∃ r ∈ ((_perform st d name tok).2).provider,
          r.record = name ∧ r.type = "TXT" ∧ r.value = tok)
    ∧ (st.valid_key = true →
        (∀ r ∈ st.provider, ∀ s ∈ st.provider,
          txtMatch name r = true → txtMatch name s = true → r = s) →
        ∀ r ∈ ((_cleanup st d name tok).2).provider,
          ¬(r.record = name ∧ r.type = "TXT" ∧ r.value = tok)) := by
  intro st d name tok
  obtain ⟨vk, recs, tr⟩ := st
  refine ⟨rfl, rfl, fun hv => ?_, fun hv huniq => ?_⟩
  · cases vk with
    | false => cases hv
    | true =>
      show ∃ r ∈ ((add_txt_record ⟨true, recs, tr⟩ name tok).2).provider,
        r.record = name ∧ r.type = "TXT" ∧ r.value = tok
      rw [add_txt_record_valid]
      cases h : recs.find? (txtMatch name) with
      | none => exact ⟨⟨name, "TXT", tok⟩, by simp, rfl, rfl, rfl⟩
      | some r =>
        by_cases hveq : r.value = tok
        · have hmem := List.mem_of_find?_eq_some h
          have hmatch := List.find?_some h
          simp only [txtMatch, Bool.and_eq_true, beq_iff_eq] at hmatch
          refine ⟨r, ?_, hmatch.1, hmatch.2, hveq⟩
          simp only [hveq]
          simpa using hmem
        · refine ⟨⟨name, "TXT", tok⟩, ?_, rfl, rfl, rfl⟩
          simp [hveq]
  · cases vk with
    | false => cases hv
    | true =>
      show ∀ r ∈ ((delete_txt_record ⟨true, recs, tr⟩ name tok).2).provider,
        ¬(r.record = name ∧ r.type = "TXT" ∧ r.value = tok)
      rw [delete_txt_record_valid]
      cases h : recs.find? (txtMatch name) with
      | none =>
        rintro r hr ⟨h₁, h₂, h₃⟩
        have := List.find?_eq_none.mp h r (by simpa using hr)
        simp [txtMatch, h₁, h₂] at this
      | some r₀ =>
        by_cases hveq : r₀.value = tok
        · rintro r hr ⟨h₁, h₂, h₃⟩
          simp only [hveq, if_true, runReq] at hr
          simp [h₁, h₂, h₃] at hr
        · rintro r hr ⟨h₁, h₂, h₃⟩
          simp only [hveq, if_false] at hr
          have hrmem : r ∈ recs := by simpa [hveq] using hr
          have hr₀mem := List.mem_of_find?_eq_some h
          have hr₀match := List.find?_some h
          have hrmatch : txtMatch name r = true := by
            simp [txtMatch, h₁, h₂]
          have heq := huniq r₀ hr₀mem r hrmem hr₀match hrmatch
          exact hveq (by rw [heq]; exact h₃)

/-- Witness for C2: from an empty provider, `_perform` installs the
validation record. -/
theorem perform_cleanup_contract_witness :
    (ClientState.mk true [] []).valid_key = true
    ∧ ∃ r ∈ ((_perform ⟨true, [], []⟩ "example.com" "challenge-name" "token").2).provider,
        r.record = "challenge-name" ∧ r.type = "TXT" ∧ r.value = "token" :=
  ⟨rfl,
    (perform_cleanup_contract ⟨true, [], []⟩ "example.com" "challenge-name" "token").2.2.1
      rfl⟩

/-- Claim C3: with a valid key, when a TXT record already exists at the
name with exactly the requested content, `add_txt_record` returns after
the lookup without issuing any mutation request and leaves the provider
untouched; consequently, starting from a provider with no TXT record at
the name, calling add twice with the same name and content issues exactly
one create request (and exactly one mutation request) over the two calls
combined. -/
theorem add_txt_record_idempotent :
    ∀ (recs : List DNSRecord) (tr : List ApiReq) (n c : String),
      (∀ r, recs.find? (txtMatch n) = some r → r.value = c →
        add_txt_record ⟨true, recs, tr⟩ n c =
          (.ok (), ⟨true, recs, tr ++ [.listRecords]⟩))
    ∧ (recs.find? (txtMatch n) = none →
        (add_txt_record (add_txt_record ⟨true, recs, []⟩ n c).2 n c).2.trace =
          [.listRecords, .addRecord n c, .listRecords]
      ∧ countCreates [ApiReq.listRecords, .addRecord n c, .listRecords] = 1
      ∧ countMutations [ApiReq.listRecords, .addRecord n c, .listRecords] = 1) := by
  intro recs tr n c
  constructor
  · intro r h hv
    rw [add_txt_record_valid, h]
    simp [hv]
  · intro h
    have h₁ : add_txt_record ⟨true, recs, []⟩ n c =
        (.ok (), ⟨true, recs ++ [⟨n, "TXT", c⟩], [.listRecords, .addRecord n c]⟩) := by
      rw [add_txt_record_valid, h]
      simp
    have h₂ : (recs ++ [(⟨n, "TXT", c⟩ : DNSRecord)]).find? (txtMatch n) =
        some (⟨n, "TXT", c⟩ : DNSRecord) := by
      rw [List.find?_append, h]
      simp [txtMatch]
    rw [h₁]
    rw [add_txt_record_valid, h₂]
    refine ⟨?_, rfl, rfl⟩
    simp

/-- Witness for C3: adding the same record twice from an empty provider
issues one lookup, one create, one lookup — a single create combined. -/
theorem add_txt_record_idempotent_witness :
    ([] : List DNSRecord).find? (txtMatch "name") = none
    ∧ (add_txt_record (add_txt_record ⟨true, [], []⟩ "name" "token").2 "name" "token").2.trace =
        [.listRecords, .addRecord "name" "token", .listRecords] :=
  ⟨rfl, ((add_txt_record_idempotent [] [] "name" "token").2 rfl).1⟩

end DreamHost
